import Mathlib

/-
Verification of the portfolio page script (src/script.js): a shallow
embedding of its DOM-effectful behaviors into pure Lean functions, with
theorems settling the specified properties.
-/

namespace Portfolio

/-
Typing Presenter (initTypingEffect / createSkipAnimationButton /
removeSkipButton, script.js lines 144-215).

The state tracks the subtitle text content (`displayed`), the typing
cursor `i`, whether the initial 1000 ms setTimeout is still pending
(`startupPending`), whether the setInterval handle is live
(`intervalActive`), whether the skip button is attached to document.body
(`skipBtnPresent`), the aria-live attribute on the subtitle, and a count
of actual DOM removals of the skip button (`btnRemovals`), used to state
the "removed exactly once" property.
-/

structure TypingState where
  displayed : List Char
  i : Nat
  startupPending : Bool
  intervalActive : Bool
  skipBtnPresent : Bool
  ariaLive : Bool
  btnRemovals : Nat
  deriving Repr, DecidableEq

/-- Embeds `removeSkipButton` (script.js 211-215): the removal is guarded
by `button && button.parentNode`, so the DOM removal only happens when the
button is still attached; otherwise the call is a no-op. -/
def removeSkipButton (s : TypingState) : TypingState :=
  if s.skipBtnPresent then
    { s with skipBtnPresent := false, btnRemovals := s.btnRemovals + 1 }
  else
    s

/-- Embeds `typeWriter` (script.js 159-168): while `i` is below the text
length, append `text.charAt(i)` to the subtitle and advance `i`; otherwise
clear the interval, remove the skip button and drop the aria-live
attribute. -/
def typeWriter (text : List Char) (s : TypingState) : TypingState :=
  if h : s.i < text.length then
    { s with displayed := s.displayed ++ [text.get ⟨s.i, h⟩], i := s.i + 1 }
  else
    let s1 := { s with intervalActive := false }
    let s2 := removeSkipButton s1
    { s2 with ariaLive := false }

/-- Embeds the skip button click handler (script.js 176-181): clear the
interval (a no-op on an unset handle), set the subtitle to the full text,
remove the skip button (guarded), drop aria-live. -/
def skipHandler (text : List Char) (s : TypingState) : TypingState :=
  let s1 := { s with intervalActive := false }
  let s2 := { s1 with displayed := text }
  let s3 := removeSkipButton s2
  { s3 with ariaLive := false }

/-- Embeds the 1000 ms startup setTimeout callback (script.js 171-173):
assign `typingInterval = setInterval(typeWriter, 50)`, i.e. the interval
becomes live. It is scheduled unconditionally when motion is not reduced,
and nothing ever cancels it. -/
def startupFire (s : TypingState) : TypingState :=
  { s with startupPending := false, intervalActive := true }

/-- Platform events that can reach the Typing Presenter after
initialization. -/
inductive TEvent
  | startup
  | tick
  | skip
  deriving Repr, DecidableEq

/-- One platform step: the startup timeout can fire only while it is
pending (it was scheduled once); an interval tick can fire only while the
interval handle is live; a skip activation runs the click handler. Events
whose platform precondition fails do not occur, modeled as identity. -/
def stepT (text : List Char) (s : TypingState) : TEvent → TypingState
  | TEvent.startup => if s.startupPending then startupFire s else s
  | TEvent.tick => if s.intervalActive then typeWriter text s else s
  | TEvent.skip => skipHandler text s

/-- Runs a sequence of platform events from a state. -/
def runT (text : List Char) (s : TypingState) (es : List TEvent) : TypingState :=
  es.foldl (stepT text) s

/-- Embeds `initTypingEffect` (script.js 144-186) for a page whose
subtitle exists and initially holds `text`. The skip button is created and
appended to document.body unconditionally (line 149, before the reduced
motion branch). With reduced motion the full text stays in place and
nothing else happens; otherwise the subtitle is cleared, aria-live is set,
and the 1000 ms startup timeout is scheduled. -/
def initTypingEffect (motion : Bool) (text : List Char) : TypingState :=
  let s0 : TypingState :=
    { displayed := text, i := 0, startupPending := false,
      intervalActive := false, skipBtnPresent := true, ariaLive := false,
      btnRemovals := 0 }
  if motion then
    s0
  else
    { s0 with displayed := [], ariaLive := true, startupPending := true }

/-- Sanity check: on the normal path (startup, then enough ticks) the
subtitle ends up holding exactly the captured text. -/
lemma runT_normal_path_sanity :
    (runT ['h', 'i'] (initTypingEffect false ['h', 'i'])
      [TEvent.startup, TEvent.tick, TEvent.tick, TEvent.tick]).displayed
      = ['h', 'i'] := by decide

/-
Section Navigator (updateActiveNavigation, script.js 67-98, and
navigateToSection, script.js 30-53).
-/

/-- Geometry of a section element: `offsetTop` and `clientHeight`, as read
by updateActiveNavigation. -/
structure SectionGeom where
  offsetTop : Int
  clientHeight : Int
  deriving Repr, DecidableEq

/-- The fixed ordered list of section ids (script.js line 68). -/
def sectionsOrder : List String :=
  ["header", "about", "skills", "projects", "experience"]

/-- Embeds the first forEach of updateActiveNavigation (script.js 71-81):
starting from the empty string, each existing section whose
`offsetTop - 200` is at or below the scroll offset overwrites `current`;
missing sections are skipped. -/
def computeCurrent (doc : String → Option SectionGeom) (scrollY : Int) : String :=
  sectionsOrder.foldl
    (fun current id =>
      match doc id with
      | some sec => if sec.offsetTop - 200 ≤ scrollY then id else current
      | none => current)
    ""

/-- Whether a section id exists in the document and has
`offsetTop - 200 ≤ scrollY`. -/
def qualifies (doc : String → Option SectionGeom) (scrollY : Int)
    (id : String) : Bool :=
  match doc id with
  | some sec => decide (sec.offsetTop - 200 ≤ scrollY)
  | none => false

/-- The spec-side characterization used by the claim: the LAST section in
the fixed order that exists and whose top minus 200 is at or below the
scroll offset, if any. -/
def lastQualifying (doc : String → Option SectionGeom) (scrollY : Int) :
    Option String :=
  (sectionsOrder.reverse).find? (qualifies doc scrollY)

/-- A navigation dot (`.nav-dot`): its `data-section` attribute and the
mutable presentation state updateActiveNavigation writes. -/
structure NavDot where
  dataSection : String
  active : Bool
  ariaCurrent : String
  ariaLabel : String
  deriving Repr, DecidableEq

/-- Embeds `sectionName.charAt(0).toUpperCase() + sectionName.slice(1)`
(script.js 92). -/
def capitalizeId (s : String) : String :=
  match s.data with
  | [] => ""
  | c :: cs => String.mk (c.toUpper :: cs)

/-- Embeds the body of the second forEach of updateActiveNavigation
(script.js 83-97) for a single dot, given the computed `current` id. -/
def updateDot (current : String) (d : NavDot) : NavDot :=
  let isActive := d.dataSection == current
  let name := capitalizeId d.dataSection
  { d with
    active := isActive,
    ariaCurrent := if isActive then "true" else "false",
    ariaLabel :=
      if isActive then "Current section: " ++ name
      else "Navigate to " ++ name ++ " section" }

/-- Embeds `updateActiveNavigation` (script.js 67-98). -/
def updateActiveNavigation (doc : String → Option SectionGeom)
    (scrollY : Int) (dots : List NavDot) : List NavDot :=
  dots.map (updateDot (computeCurrent doc scrollY))

/-- Observable effects of `navigateToSection`. -/
structure NavEffects where
  announcements : List String
  scrolls : List (String × Bool)
  focusTarget : Option String
  deriving Repr, DecidableEq

/-- Embeds the coercion getElementById applies to a null argument:
`document.getElementById(null)` looks up the id "null". -/
def idArgToString : Option String → String
  | some s => s
  | none => "null"

/-- Embeds `navigateToSection` (script.js 30-53) as a function from the
element's `data-section` attribute (None when the attribute is absent) to
the effects performed. `exists_` is the document's id lookup; `motion` is
prefersReducedMotion and selects instant vs smooth scrolling. When the
looked-up section is absent, nothing at all happens. -/
def navigateToSection (motion : Bool) (exists_ : String → Bool)
    (attr : Option String) : NavEffects :=
  let idStr := idArgToString attr
  if exists_ idStr then
    { announcements := ["Navigating to " ++ idStr ++ " section"],
      scrolls := [(idStr, !motion)],
      focusTarget := some idStr }
  else
    { announcements := [], scrolls := [], focusTarget := none }

/-
Card Hover Responder (project-card listeners, script.js 101-141).
-/

/-- Inline style state of a project card, as touched by the handlers. -/
structure Card where
  transform : String
  transition : String
  outline : String
  outlineOffset : String
  deriving Repr, DecidableEq

/-- The transform string the enter/focus handlers write (script.js 113). -/
def liftTransform : String := "translateY(-10px) rotateX(5deg)"

/-- The transform string the leave/blur handlers write (script.js 120). -/
def restTransform : String := "translateY(0) rotateX(0deg)"

/-- Embeds the mouseenter handler (script.js 111-116). -/
def cardMouseEnter (motion : Bool) (c : Card) : Card :=
  if motion then c
  else { c with transform := liftTransform, transition := "transform 0.3s ease" }

/-- Embeds the mouseleave handler (script.js 118-122). -/
def cardMouseLeave (motion : Bool) (c : Card) : Card :=
  if motion then c
  else { c with transform := restTransform }

/-- Embeds the focus handler (script.js 125-133): the transform part is
gated on reduced motion, the focus outline is applied unconditionally. -/
def cardFocus (motion : Bool) (c : Card) : Card :=
  let c1 :=
    if motion then c
    else { c with transform := liftTransform, transition := "transform 0.3s ease" }
  { c1 with outline := "2px solid #007acc", outlineOffset := "2px" }

/-- Embeds the blur handler (script.js 135-140). -/
def cardBlur (motion : Bool) (c : Card) : Card :=
  let c1 :=
    if motion then c
    else { c with transform := restTransform }
  { c1 with outline := "none" }

/-
Parallax Responder (initParallaxEffect, script.js 218-235).
-/

/-- The scroll listeners initParallaxEffect may attach. -/
inductive ScrollListener
  | parallax
  deriving Repr, DecidableEq

/-- Embeds `initParallaxEffect` (script.js 218-235) at the level of
listener registration: with reduced motion it returns before attaching
anything; otherwise it attaches the parallax scroll listener. -/
def initParallaxEffect (motion : Bool) : List ScrollListener :=
  if motion then [] else [ScrollListener.parallax]

/-- Embeds the parallax update (script.js 226-229): the background
position is set to `center {scrolled * 0.5}px`, recorded here as the
rational offset `scrolled * (1/2)`. -/
def applyScrollListener (l : ScrollListener) (scrollY : ℚ) (_bgPos : Option ℚ) :
    Option ℚ :=
  match l with
  | ScrollListener.parallax => some (scrollY * (1 / 2))

/-- Runs a sequence of scroll events through the attached listeners,
tracking the background position offset (None = never written). -/
def runScrollEvents (ls : List ScrollListener) (events : List ℚ)
    (bgPos : Option ℚ) : Option ℚ :=
  events.foldl (fun b y => ls.foldl (fun b' l => applyScrollListener l y b') b) bgPos

/-
Accessibility Announcer (announceToScreenReader, script.js 238-257), and
the shape of the removal primitive (Node.removeChild), which throws a
NotFoundError when the argument is not a child.
-/

/-- The children of document.body, as (element id, text content) pairs in
insertion order, plus a fresh-id counter: createElement always yields a
brand new node. -/
structure Surface where
  elems : List (Nat × String)
  nextId : Nat
  deriving Repr, DecidableEq

/-- Embeds `Node.removeChild`: removes the identified child, or faults
with NotFoundError when no such child is present. The primitive itself
does not tolerate removal of an already-removed element. -/
def removeChild (sf : Surface) (id : Nat) : Except String Surface :=
  if sf.elems.any (fun e => e.fst == id) then
    Except.ok { sf with elems := sf.elems.filter (fun e => e.fst != id) }
  else
    Except.error "NotFoundError"

/-- Embeds the synchronous part of `announceToScreenReader` (script.js
238-251): create a fresh off-screen live-region element whose text content
is exactly the message and append it to document.body. Returns the new
surface, the created element's id, and the delay (ms) of the scheduled
removal (script.js 254-256). -/
def announceToScreenReader (sf : Surface) (msg : String) :
    Surface × Nat × Nat :=
  ({ elems := sf.elems ++ [(sf.nextId, msg)], nextId := sf.nextId + 1 },
   sf.nextId, 1000)

/-- Embeds the announcement cleanup timeout callback (script.js 254-256):
`document.body.removeChild(announcement)`, with no guard — it calls the
faulting primitive directly. -/
def announceCleanup (sf : Surface) (id : Nat) : Except String Surface :=
  removeChild sf id

/-- Embeds `removeSkipButton` (script.js 211-215) against the faulting
removal primitive: `btn` is None when the reference is null, and the
removal only runs when the button still has a parent (is attached). -/
def removeSkipButtonDom (sf : Surface) (btn : Option Nat) :
    Except String Surface :=
  match btn with
  | none => Except.ok sf
  | some id =>
      if sf.elems.any (fun e => e.fst == id) then removeChild sf id
      else Except.ok sf

/-- Surfaces whose element ids were all allocated by the counter. -/
abbrev Surface.WF (sf : Surface) : Prop :=
  ∀ e ∈ sf.elems, e.fst < sf.nextId

/-
Helper lemmas.
-/

lemma foldl_choice_eq_find?_reverse (p : String → Bool) :
    ∀ (l : List String) (init : String),
      l.foldl (fun cur id => if p id then id else cur) init
        = (l.reverse.find? p).getD init := by
  intro l
  induction l with
  | nil => intro init; rfl
  | cons a l ih =>
      intro init
      simp only [List.foldl_cons, List.reverse_cons, List.find?_append]
      rw [ih]
      cases hf : l.reverse.find? p with
      | some x => simp
      | none =>
          by_cases hp : p a <;>
            simp [List.find?_cons, hp]

lemma computeCurrent_eq_lastQualifying (doc : String → Option SectionGeom)
    (y : Int) :
    computeCurrent doc y = (lastQualifying doc y).getD "" := by
  have hfun : (fun (current : String) (id : String) =>
      match doc id with
      | some sec => if sec.offsetTop - 200 ≤ y then id else current
      | none => current)
      = fun cur id => if qualifies doc y id then id else cur := by
    funext cur id
    unfold qualifies
    cases doc id with
    | some sec => by_cases h : sec.offsetTop - 200 ≤ y <;> simp [h]
    | none => simp
  unfold computeCurrent lastQualifying
  rw [hfun]
  exact foldl_choice_eq_find?_reverse (qualifies doc y) sectionsOrder ""

lemma filter_map_length_le_one {α : Type} (f : α → String) :
    ∀ (l : List α), (l.map f).Nodup → ∀ c : String,
      (l.filter (fun x => f x == c)).length ≤ 1 := by
  intro l
  induction l with
  | nil => intro _ c; simp
  | cons a l ih =>
      intro hnd c
      rw [List.map_cons, List.nodup_cons] at hnd
      by_cases h : f a == c
      · rw [show (a :: l).filter (fun x => f x == c)
            = a :: l.filter (fun x => f x == c) by
          simp [List.filter_cons, h]]
        have hz : l.filter (fun x => f x == c) = [] := by
          rw [List.filter_eq_nil_iff]
          intro x hx
          have hmem : f x ∈ l.map f := List.mem_map_of_mem f hx
          have hne : f x ≠ f a := by
            intro he
            exact hnd.1 (he ▸ hmem)
          simp only [beq_iff_eq]
          intro hc
          exact hne (by rw [hc, eq_of_beq h])
        simp [hz]
      · rw [show (a :: l).filter (fun x => f x == c)
            = l.filter (fun x => f x == c) by
          simp [List.filter_cons, h]]
        exact ih hnd.2 c

lemma updateDot_active (cur : String) (d : NavDot) :
    (updateDot cur d).active = (d.dataSection == cur) := rfl

lemma updateDot_dataSection (cur : String) (d : NavDot) :
    (updateDot cur d).dataSection = d.dataSection := rfl

lemma empty_not_mem_sectionsOrder : "" ∉ sectionsOrder := by decide

/-- Claim C1: for every scroll offset, updateActiveNavigation sets
active=true on at most one navigation marker, namely the marker of the
last section in the fixed order (header, about, skills, projects,
experience) whose top offset minus 200 is at or below the current scroll
offset; if no section qualifies, zero markers are active. The markers are
assumed to carry pairwise distinct section ids drawn from the fixed order,
as the data model stipulates (one marker per section). -/
theorem updateActiveNavigation_at_most_one_active
    (doc : String → Option SectionGeom) (scrollY : Int) (dots : List NavDot)
    (hnd : (dots.map NavDot.dataSection).Nodup)
    (hmem : ∀ d ∈ dots, d.dataSection ∈ sectionsOrder) :
    ((updateActiveNavigation doc scrollY dots).filter
        (fun d => d.active)).length ≤ 1
    ∧ (∀ d ∈ updateActiveNavigation doc scrollY dots, d.active = true →
        lastQualifying doc scrollY = some d.dataSection)
    ∧ (lastQualifying doc scrollY = none →
        ∀ d ∈ updateActiveNavigation doc scrollY dots, d.active = false) := by
  set cur := computeCurrent doc scrollY with hcur
  have hmap : updateActiveNavigation doc scrollY dots
      = dots.map (updateDot cur) := rfl
  refine ⟨?_, ?_, ?_⟩
  · rw [hmap, List.filter_map]
    rw [List.length_map]
    have hcongr : dots.filter ((fun d => d.active) ∘ updateDot cur)
        = dots.filter (fun d => d.dataSection == cur) := by
      apply List.filter_congr
      intro x _
      simp [Function.comp, updateDot_active]
    rw [hcongr]
    exact filter_map_length_le_one NavDot.dataSection dots hnd cur
  · intro d hd hact
    rw [hmap] at hd
    rcases List.mem_map.mp hd with ⟨d0, hd0, rfl⟩
    rw [updateDot_active] at hact
    have hds : d0.dataSection = cur := by
      exact eq_of_beq hact
    rw [updateDot_dataSection, hds]
    rcases hq : lastQualifying doc scrollY with _ | c
    · exfalso
      have : cur = "" := by
        rw [hcur, computeCurrent_eq_lastQualifying, hq]
        rfl
      exact empty_not_mem_sectionsOrder
        (by rw [← this, ← hds]; exact hmem d0 hd0)
    · have : cur = c := by
        rw [hcur, computeCurrent_eq_lastQualifying, hq]
        rfl
      rw [this]
  · intro hq d hd
    rw [hmap] at hd
    rcases List.mem_map.mp hd with ⟨d0, hd0, rfl⟩
    rw [updateDot_active]
    have hcur0 : cur = "" := by
      rw [hcur, computeCurrent_eq_lastQualifying, hq]
      rfl
    have hne : d0.dataSection ≠ "" := by
      intro he
      exact empty_not_mem_sectionsOrder (he ▸ hmem d0 hd0)
    rw [hcur0]
    simp [hne]

/-- A concrete five-section document used by witnesses. -/
def docW : String → Option SectionGeom := fun id =>
  if id = "header" then some ⟨0, 600⟩
  else if id = "about" then some ⟨600, 500⟩
  else if id = "skills" then some ⟨1100, 500⟩
  else if id = "projects" then some ⟨1600, 600⟩
  else if id = "experience" then some ⟨2200, 700⟩
  else none

/-- One navigation dot per section id, in the fixed order, as the page
markup provides. -/
def dotsW : List NavDot :=
  sectionsOrder.map (fun id =>
    { dataSection := id, active := false, ariaCurrent := "false",
      ariaLabel := "Navigate to " ++ capitalizeId id ++ " section" })

/-- Witness for C1 at a concrete document, scroll offset 700 and the five
standard markers. -/
theorem updateActiveNavigation_at_most_one_active_witness :
    ((updateActiveNavigation docW 700 dotsW).filter
        (fun d => d.active)).length ≤ 1
    ∧ (∀ d ∈ updateActiveNavigation docW 700 dotsW, d.active = true →
        lastQualifying docW 700 = some d.dataSection)
    ∧ (lastQualifying docW 700 = none →
        ∀ d ∈ updateActiveNavigation docW 700 dotsW, d.active = false) :=
  updateActiveNavigation_at_most_one_active docW 700 dotsW
    (by decide) (by decide)

/-- Claim C2 (refuted in part, code bug): with reduced motion at startup
the full text is shown immediately and no timer is scheduled or started,
but the skip control IS created and appended to document.body — line 149
runs `createSkipAnimationButton()` before the reduced-motion branch, and
the reduced-motion branch never removes it, contradicting the claim that
no skip control is ever created. -/
theorem initTypingEffect_reducedMotion_creates_skip_control :
    (initTypingEffect true ['h', 'i']).displayed = ['h', 'i']
    ∧ (initTypingEffect true ['h', 'i']).startupPending = false
    ∧ (initTypingEffect true ['h', 'i']).intervalActive = false
    ∧ (initTypingEffect true ['h', 'i']).skipBtnPresent = true := by
  decide

/-- Claim C3 (refuted, code bug): activating skip at emitted-count 0,
before the 1000 ms startup timeout has fired, does display the full text
at that moment, but the startup timeout then still fires and starts the
per-character interval (the skip handler clears only the — not yet
assigned — interval handle, not the pending timeout), so the timer fires
after cancellation and the characters are appended after the full text:
final displayed text is the source text twice. -/
theorem skip_before_startup_timer_fires_after_skip :
    (runT ['a', 'b'] (initTypingEffect false ['a', 'b'])
        [TEvent.skip]).displayed = ['a', 'b']
    ∧ (runT ['a', 'b'] (initTypingEffect false ['a', 'b'])
        [TEvent.skip, TEvent.startup, TEvent.tick, TEvent.tick]).displayed
      = ['a', 'b', 'a', 'b'] := by
  decide

/-- The skip button bookkeeping invariant: at most one actual DOM removal
ever happens, and the button is attached exactly while no removal has
happened. -/
def SkipBtnInv (s : TypingState) : Prop :=
  s.btnRemovals ≤ 1 ∧ (s.skipBtnPresent = true ↔ s.btnRemovals = 0)

lemma skipBtnInv_removeSkipButton {s : TypingState} (h : SkipBtnInv s) :
    SkipBtnInv (removeSkipButton s) := by
  unfold removeSkipButton
  by_cases hp : s.skipBtnPresent = true
  · rw [if_pos hp]
    have h0 : s.btnRemovals = 0 := h.2.mp hp
    refine ⟨by simp [h0], ?_, ?_⟩
    · intro hfalse
      simp at hfalse
    · intro hc
      simp [h0] at hc
  · rw [if_neg hp]
    exact h

lemma skipBtnInv_step (text : List Char) (s : TypingState) (e : TEvent)
    (h : SkipBtnInv s) : SkipBtnInv (stepT text s e) := by
  cases e with
  | startup =>
      simp only [stepT]
      by_cases hs : s.startupPending = true
      · rw [if_pos hs]
        exact h
      · rw [if_neg hs]
        exact h
  | tick =>
      simp only [stepT]
      by_cases hi : s.intervalActive = true
      · rw [if_pos hi]
        unfold typeWriter
        split
        · exact h
        · exact @skipBtnInv_removeSkipButton { s with intervalActive := false } h
      · rw [if_neg hi]
        exact h
  | skip =>
      simp only [stepT, skipHandler]
      exact @skipBtnInv_removeSkipButton
        { s with intervalActive := false, displayed := text } h

lemma skipBtnInv_runT (text : List Char) (es : List TEvent) :
    ∀ s : TypingState, SkipBtnInv s → SkipBtnInv (runT text s es) := by
  induction es with
  | nil => intro s h; exact h
  | cons e es ih =>
      intro s h
      exact ih (stepT text s e) (skipBtnInv_step text s e h)

lemma skipBtnInv_init (text : List Char) :
    SkipBtnInv (initTypingEffect false text) := by
  unfold initTypingEffect SkipBtnInv
  simp

lemma skipBtn_removal_only_terminal (text : List Char) (s : TypingState)
    (e : TEvent) (hp : s.skipBtnPresent = true)
    (hr : (stepT text s e).skipBtnPresent = false) :
    e = TEvent.skip
      ∨ (e = TEvent.tick ∧ s.intervalActive = true ∧ text.length ≤ s.i) := by
  cases e with
  | skip => exact Or.inl rfl
  | startup =>
      exfalso
      simp only [stepT] at hr
      by_cases hs : s.startupPending = true
      · rw [if_pos hs] at hr
        simp [startupFire, hp] at hr
      · rw [if_neg hs] at hr
        simp [hp] at hr
  | tick =>
      simp only [stepT] at hr
      by_cases hi : s.intervalActive = true
      · rw [if_pos hi] at hr
        unfold typeWriter at hr
        split at hr
        · exfalso
          simp [hp] at hr
        · rename_i hnlt
          refine Or.inr ⟨rfl, hi, ?_⟩
          omega
      · exfalso
        rw [if_neg hi] at hr
        simp [hp] at hr

/-- Claim C5: over any event sequence from a non-reduced-motion start, the
skip control undergoes at most one actual DOM removal, it is attached
exactly while no removal has happened (so once removed it is never removed
again), and an event that takes the button from attached to detached is
either a skip activation (Skipped) or an interval tick with the cursor at
the end of the text (Done). -/
theorem skip_button_removed_exactly_once (text : List Char)
    (es : List TEvent) :
    (runT text (initTypingEffect false text) es).btnRemovals ≤ 1
    ∧ ((runT text (initTypingEffect false text) es).skipBtnPresent = true
        ↔ (runT text (initTypingEffect false text) es).btnRemovals = 0)
    ∧ (∀ e : TEvent,
        (runT text (initTypingEffect false text) es).skipBtnPresent = true →
        (stepT text (runT text (initTypingEffect false text) es)
            e).skipBtnPresent = false →
        (e = TEvent.skip
          ∨ (e = TEvent.tick
              ∧ (runT text (initTypingEffect false text) es).intervalActive
                  = true
              ∧ text.length
                  ≤ (runT text (initTypingEffect false text) es).i))) := by
  have hinv := skipBtnInv_runT text es (initTypingEffect false text)
    (skipBtnInv_init text)
  exact ⟨hinv.1, hinv.2, fun e hp hr =>
    skipBtn_removal_only_terminal text
      (runT text (initTypingEffect false text) es) e hp hr⟩

/-- Witness for C5 on the one-character text, after the startup timeout,
with a skip activation as the removing event. -/
theorem skip_button_removed_exactly_once_witness :
    (runT ['a'] (initTypingEffect false ['a']) [TEvent.startup]).btnRemovals
        ≤ 1
    ∧ ((runT ['a'] (initTypingEffect false ['a'])
          [TEvent.startup]).skipBtnPresent = true
        ↔ (runT ['a'] (initTypingEffect false ['a'])
            [TEvent.startup]).btnRemovals = 0)
    ∧ (TEvent.skip = TEvent.skip
        ∨ (TEvent.skip = TEvent.tick
            ∧ (runT ['a'] (initTypingEffect false ['a'])
                [TEvent.startup]).intervalActive = true
            ∧ (['a'] : List Char).length
                ≤ (runT ['a'] (initTypingEffect false ['a'])
                    [TEvent.startup]).i)) :=
  ⟨(skip_button_removed_exactly_once ['a'] [TEvent.startup]).1,
   (skip_button_removed_exactly_once ['a'] [TEvent.startup]).2.1,
   (skip_button_removed_exactly_once ['a'] [TEvent.startup]).2.2
     TEvent.skip (by decide) (by decide)⟩

/-- Claim C7: for an id that identifies no existing section,
navigateToSection is a silent no-op — no announcement, no scroll, no
focus change. -/
theorem navigateToSection_missing_id_noop (motion : Bool)
    (ex : String → Bool) (id : String) (h : ex id = false) :
    navigateToSection motion ex (some id)
      = { announcements := [], scrolls := [], focusTarget := none } := by
  simp [navigateToSection, idArgToString, h]

/-- A concrete id-existence predicate: only "header" exists. -/
def exW : String → Bool := fun s => s == "header"

/-- Witness for C7 on a missing id. -/
theorem navigateToSection_missing_id_noop_witness :
    exW "missing" = false
    ∧ navigateToSection false exW (some "missing")
      = { announcements := [], scrolls := [], focusTarget := none } :=
  ⟨by decide,
   navigateToSection_missing_id_noop false exW "missing" (by decide)⟩

/-- Claim C10: a marker with no data-section attribute at all yields a
null id; getElementById coerces it to the string "null", and provided the
page has no element with id "null", the lookup fails, so activation
performs no announcement, no scroll and no focus change, and the model is
a total function — no fault. -/
theorem navigateToSection_null_attr_noop (motion : Bool)
    (ex : String → Bool) (h : ex "null" = false) :
    navigateToSection motion ex none
      = { announcements := [], scrolls := [], focusTarget := none } := by
  simp [navigateToSection, idArgToString, h]

/-- Witness for C10. -/
theorem navigateToSection_null_attr_noop_witness :
    exW "null" = false
    ∧ navigateToSection true exW none
      = { announcements := [], scrolls := [], focusTarget := none } :=
  ⟨by decide, navigateToSection_null_attr_noop true exW (by decide)⟩

/-- A card in the default initial inline-style state: all inline style
properties unset (empty strings). -/
def defaultCard : Card :=
  { transform := "", transition := "", outline := "", outlineOffset := "" }

/-- Claim C4 counterexample: starting from the default card (inline
transform unset), pointer-enter then pointer-leave under Motion
Preference = false does NOT restore the pre-enter transform string
exactly — it leaves the explicit identity transform string instead of the
original empty value. -/
theorem card_roundtrip_not_exact_counterexample :
    (cardMouseLeave false (cardMouseEnter false defaultCard)).transform
      ≠ defaultCard.transform := by
  decide

/-- Claim C4 (amended): with Motion Preference true, enter/leave do not
alter the card at all and focus/blur never alter the transform; with
Motion Preference false, enter-then-leave (and focus-then-blur) always
leaves the transform equal to the explicit identity string
"translateY(0) rotateX(0deg)" — visually an identity, and an exact
restoration of the pre-enter transform precisely when that transform was
already this explicit identity string (not when it was the default empty
value). -/
theorem card_roundtrip_amended :
    (∀ c : Card, cardMouseEnter true c = c ∧ cardMouseLeave true c = c
        ∧ (cardFocus true c).transform = c.transform
        ∧ (cardBlur true c).transform = c.transform)
    ∧ (∀ c : Card,
        (cardMouseLeave false (cardMouseEnter false c)).transform
            = restTransform
        ∧ (cardBlur false (cardFocus false c)).transform = restTransform)
    ∧ (∀ c : Card, c.transform = restTransform →
        (cardMouseLeave false (cardMouseEnter false c)).transform
            = c.transform
        ∧ (cardBlur false (cardFocus false c)).transform = c.transform) := by
  refine ⟨fun c => ⟨rfl, rfl, rfl, rfl⟩, fun c => ⟨rfl, rfl⟩, fun c h => ?_⟩
  exact ⟨by rw [h]; rfl, by rw [h]; rfl⟩

/-- A card whose transform is already the explicit identity string. -/
def restCard : Card :=
  { transform := restTransform, transition := "", outline := "",
    outlineOffset := "" }

/-- Witness for the amended C4 at a card already carrying the explicit
identity transform. -/
theorem card_roundtrip_amended_witness :
    (cardMouseLeave false (cardMouseEnter false restCard)).transform
        = restCard.transform
    ∧ (cardBlur false (cardFocus false restCard)).transform
        = restCard.transform :=
  card_roundtrip_amended.2.2 restCard rfl

/-- Claim C8: with reduced motion, initParallaxEffect attaches no scroll
listener, so no sequence of scroll events ever writes the background
position. -/
theorem parallax_reducedMotion_never_updates (events : List ℚ)
    (bg : Option ℚ) :
    initParallaxEffect true = []
    ∧ runScrollEvents (initParallaxEffect true) events bg = bg := by
  refine ⟨rfl, ?_⟩
  induction events with
  | nil => rfl
  | cons y ys ih => exact ih

lemma filter_ne_of_all_ne (l : List (Nat × String)) (n : Nat)
    (h : ∀ e ∈ l, e.fst ≠ n) :
    l.filter (fun e => e.fst != n) = l := by
  rw [List.filter_eq_self]
  intro a ha
  simpa [bne_iff_ne] using h a ha

lemma removeChild_sandwich (l1 l2 : List (Nat × String)) (n : Nat)
    (msg : String) (k : Nat)
    (h1 : ∀ e ∈ l1, e.fst ≠ n) (h2 : ∀ e ∈ l2, e.fst ≠ n) :
    removeChild { elems := l1 ++ [(n, msg)] ++ l2, nextId := k } n
      = Except.ok { elems := l1 ++ l2, nextId := k } := by
  unfold removeChild
  have hany : ((l1 ++ [(n, msg)] ++ l2).any (fun e => e.fst == n)) = true := by
    simp
  rw [if_pos hany]
  have hf1 := filter_ne_of_all_ne l1 n h1
  have hf2 := filter_ne_of_all_ne l2 n h2
  simp [List.filter_append, hf1, hf2]

lemma removeChild_last (l1 : List (Nat × String)) (n : Nat) (msg : String)
    (k : Nat) (h1 : ∀ e ∈ l1, e.fst ≠ n) :
    removeChild { elems := l1 ++ [(n, msg)], nextId := k } n
      = Except.ok { elems := l1, nextId := k } := by
  have h := removeChild_sandwich l1 [] n msg k h1 (by intro e he; cases he)
  simpa using h

lemma cleanup_after_announce (sf : Surface) (msg : String)
    (hwf : Surface.WF sf) :
    announceCleanup (announceToScreenReader sf msg).1
        (announceToScreenReader sf msg).2.1
      = Except.ok { elems := sf.elems, nextId := sf.nextId + 1 } :=
  removeChild_last sf.elems sf.nextId msg (sf.nextId + 1)
    (fun e he => by have := hwf e he; omega)

/-- Claim C6 counterexample: the announcement cleanup path is NOT guarded
— applied to a surface from which the element is already gone, it invokes
the raw removal primitive, which faults with NotFoundError. -/
theorem announce_cleanup_unguarded_counterexample :
    announceCleanup { elems := [], nextId := 1 } 0
      = Except.error "NotFoundError" := rfl

/-- Claim C6 (amended): the skip control removal is guarded (null check
plus parent check) and never faults, even on an already-removed button;
the announcement removal is unguarded — it calls the faulting primitive
directly — but in this program each announcement's single scheduled
cleanup runs on its own still-attached, freshly created element, so the
call succeeds and no double-removal arises. -/
theorem redundant_removal_guard_amended :
    (∀ (sf : Surface) (btn : Option Nat),
        ∃ sf2, removeSkipButtonDom sf btn = Except.ok sf2)
    ∧ (∀ (sf : Surface) (msg : String), Surface.WF sf →
        announceCleanup (announceToScreenReader sf msg).1
            (announceToScreenReader sf msg).2.1
          = Except.ok { elems := sf.elems, nextId := sf.nextId + 1 }) := by
  constructor
  · intro sf btn
    cases btn with
    | none => exact ⟨sf, rfl⟩
    | some id =>
        simp only [removeSkipButtonDom]
        by_cases hmem : (sf.elems.any (fun e => e.fst == id)) = true
        · rw [if_pos hmem]
          unfold removeChild
          rw [if_pos hmem]
          exact ⟨_, rfl⟩
        · rw [if_neg hmem]
          exact ⟨sf, rfl⟩
  · intro sf msg hwf
    exact cleanup_after_announce sf msg hwf

/-- Witness for the amended C6: removing a detached button does not fault,
and the announcement cleanup on a one-element page succeeds. -/
theorem redundant_removal_guard_amended_witness :
    (∃ sf2, removeSkipButtonDom { elems := [], nextId := 1 } (some 0)
        = Except.ok sf2)
    ∧ announceCleanup
          (announceToScreenReader { elems := [(0, "x")], nextId := 1 }
            "hello").1
          (announceToScreenReader { elems := [(0, "x")], nextId := 1 }
            "hello").2.1
        = Except.ok { elems := [(0, "x")], nextId := 2 } :=
  ⟨redundant_removal_guard_amended.1 { elems := [], nextId := 1 } (some 0),
   redundant_removal_guard_amended.2 { elems := [(0, "x")], nextId := 1 }
     "hello" (by decide)⟩

/-- Claim C9: announceToScreenReader inserts an element whose text content
is exactly the message, schedules its removal after the fixed 1000 ms
delay, the removal succeeds and leaves no residual element (the page's
other children are untouched), and concurrent announcements are
independent: a second announcement gets a distinct fresh element, and
firing both scheduled removals restores the original children exactly. -/
theorem announce_inserts_and_removes_exactly (sf : Surface)
    (msg m2 : String) (hwf : Surface.WF sf) :
    ((announceToScreenReader sf msg).2.1, msg)
        ∈ (announceToScreenReader sf msg).1.elems
    ∧ (announceToScreenReader sf msg).2.2 = 1000
    ∧ announceCleanup (announceToScreenReader sf msg).1
          (announceToScreenReader sf msg).2.1
        = Except.ok { elems := sf.elems, nextId := sf.nextId + 1 }
    ∧ (announceToScreenReader sf msg).2.1
        ≠ (announceToScreenReader (announceToScreenReader sf msg).1 m2).2.1
    ∧ (∃ sf3 sf4 : Surface,
        announceCleanup
            (announceToScreenReader (announceToScreenReader sf msg).1 m2).1
            (announceToScreenReader sf msg).2.1 = Except.ok sf3
        ∧ announceCleanup sf3
            (announceToScreenReader (announceToScreenReader sf msg).1
              m2).2.1 = Except.ok sf4
        ∧ sf4.elems = sf.elems) := by
  have hA : ∀ e ∈ sf.elems, e.fst ≠ sf.nextId := fun e he => by
    have := hwf e he; omega
  refine ⟨?_, rfl, cleanup_after_announce sf msg hwf, ?_, ?_⟩
  · simp [announceToScreenReader]
  · simp only [announceToScreenReader]
    omega
  · refine ⟨{ elems := sf.elems ++ [(sf.nextId + 1, m2)],
              nextId := sf.nextId + 1 + 1 },
      { elems := sf.elems, nextId := sf.nextId + 1 + 1 }, ?_, ?_, rfl⟩
    · exact removeChild_sandwich sf.elems [(sf.nextId + 1, m2)] sf.nextId
        msg (sf.nextId + 1 + 1) hA (by
          intro e he
          rw [List.mem_singleton] at he
          subst he
          omega)
    · exact removeChild_last sf.elems (sf.nextId + 1) m2
        (sf.nextId + 1 + 1) (fun e he => by have := hwf e he; omega)

/-- Witness for C9 on the empty page with messages "hello" and "world". -/
theorem announce_inserts_and_removes_exactly_witness :
    ((announceToScreenReader { elems := [], nextId := 0 } "hello").2.1,
        "hello")
        ∈ (announceToScreenReader { elems := [], nextId := 0 }
            "hello").1.elems
    ∧ (announceToScreenReader { elems := [], nextId := 0 } "hello").2.2
        = 1000
    ∧ announceCleanup
          (announceToScreenReader { elems := [], nextId := 0 } "hello").1
          (announceToScreenReader { elems := [], nextId := 0 } "hello").2.1
        = Except.ok { elems := [], nextId := 1 }
    ∧ (announceToScreenReader { elems := [], nextId := 0 } "hello").2.1
        ≠ (announceToScreenReader
            (announceToScreenReader { elems := [], nextId := 0 }
              "hello").1 "world").2.1
    ∧ (∃ sf3 sf4 : Surface,
        announceCleanup
            (announceToScreenReader
              (announceToScreenReader { elems := [], nextId := 0 }
                "hello").1 "world").1
            (announceToScreenReader { elems := [], nextId := 0 }
              "hello").2.1 = Except.ok sf3
        ∧ announceCleanup sf3
            (announceToScreenReader
              (announceToScreenReader { elems := [], nextId := 0 }
                "hello").1 "world").2.1 = Except.ok sf4
        ∧ sf4.elems = ({ elems := [], nextId := 0 } : Surface).elems) :=
  announce_inserts_and_removes_exactly { elems := [], nextId := 0 }
    "hello" "world" (by decide)

end Portfolio
